import Mathlib

/-!
Verification development for the single-page capture server (server.js).
The JavaScript in src/server.js is shallowly embedded: pure fragments
become Lean functions; the event-driven fallback listener of
waitForImageDemoResponse becomes a step function folded over a trace of
control-channel events; fallible browser calls become Except-valued
inputs.  Definitions follow the source line by line; theorems settle the
frozen claims about the spec.
-/

namespace PupServer

/-- JSON scalar values appearing in the server's response bodies. -/
inductive JsonVal where
  | bool (b : Bool)
  | str (s : String)
deriving DecidableEq, Repr

/-- A JavaScript error as observed by the catch blocks of server.js:
its constructor name, its message when it is a string (catch blocks
test typeof e.message), and the String(err) rendering used when the
message is falsy. -/
structure JsErr where
  name : String
  message : Option String
  stringRep : String
deriving DecidableEq, Repr

/-- Double-quote character, written by code point to keep string
literals in this file quote-free. -/
def dqChar : Char := Char.ofNat 34

/-- Single-quote character, written by code point. -/
def sqChar : Char := Char.ofNat 39

/-- Boolean prefix test on character lists. -/
def isPrefixList : List Char → List Char → Bool
  | [], _ => true
  | _ :: _, [] => false
  | a :: as, b :: bs => a = b && isPrefixList as bs

/-- Boolean infix test on character lists: does sub occur inside hay. -/
def listInfix (sub hay : List Char) : Bool :=
  match hay with
  | [] => sub.isEmpty
  | _ :: rest => isPrefixList sub hay || listInfix sub rest

/-- Embedding of the JavaScript String.prototype.includes test. -/
def strIncludes (hay sub : String) : Bool :=
  listInfix sub.toList hay.toList

/-- Embedding of the JavaScript toLowerCase call, charwise over the
string's characters. -/
def lowerStr (s : String) : String :=
  String.mk (s.toList.map Char.toLower)

/-- Marker substring identifying the network response of interest
(IMAGE_DEMO_SUBSTR in server.js, line 10). -/
def IMAGE_DEMO_SUBSTR : String := "/image-demo"

/-! ## ResourceFilter: the request-interception handler (lines 55-67) -/

deriving instance DecidableEq for Except

/-- A request as seen by the interception handler: resourceType may be
a function (which can return a kind or throw), or absent; the private
field req._resourceType may also be absent. -/
structure Request where
  resourceTypeFn : Option (Except Unit String)
  underscoreResourceType : Option String
deriving DecidableEq, Repr

/-- Resource-kind classification of server.js line 60: call
req.resourceType() when it is a function, falling back to
req._resourceType or the empty string when it is absent or throws. -/
def classifyResourceType (req : Request) : String :=
  match req.resourceTypeFn with
  | some (Except.ok t) => t
  | some (Except.error _) => req.underscoreResourceType.getD ""
  | none => req.underscoreResourceType.getD ""

/-- Outcome of the interception handler for one request. -/
inductive ReqAction where
  | abort
  | cont
deriving DecidableEq, Repr

/-- The request handler body of server.js lines 59-62 (re-registered
identically at lines 220-223): abort image, font and stylesheet
requests, continue everything else. -/
def handleRequest (req : Request) : ReqAction :=
  let t := classifyResourceType req
  if t = "image" || t = "font" || t = "stylesheet" then ReqAction.abort
  else ReqAction.cont

/-- Interception configuration on the page: whether protocol-level
interception is on, and how many request handlers are registered. -/
structure FilterState where
  interception : Bool
  handlers : Nat
deriving DecidableEq, Repr

/-- enableResourceBlocking (lines 55-67): setRequestInterception(true)
then page.on registers one more handler; when the interception call
throws, the catch only warns and the state is left unchanged. -/
def enableResourceBlocking (ok : Bool) (s : FilterState) : FilterState :=
  if ok then { interception := true, handlers := s.handlers + 1 }
  else s

/-- The interception-disable block of the /status handler (lines
190-196): setRequestInterception(false) only; no handler is
deregistered; a throw is swallowed and leaves the state unchanged. -/
def statusDisable (ok : Bool) (s : FilterState) : FilterState :=
  if ok then { s with interception := false }
  else s

/-- The re-enable block of the /status handler (lines 214-224):
removeAllListeners drops every request handler, then
setRequestInterception(true) and page.on register exactly one; when
the interception call throws the catch swallows it, leaving zero
handlers. -/
def statusReenable (ok : Bool) (s : FilterState) : FilterState :=
  let s1 : FilterState := { s with handlers := 0 }
  if ok then { interception := true, handlers := 1 }
  else s1

/-! ## Liveness endpoint (line 106) -/

/-- The /ping handler body: res.json of an object literal with keys
ok, ts and host, in that order, with status 200. -/
def pingHandler (now host : String) : Nat × List (String × JsonVal) :=
  (200, [("ok", JsonVal.bool true), ("ts", JsonVal.str now),
         ("host", JsonVal.str host)])

/-! ## ArtifactExtractor: extractVerificationToken (lines 89-102)

The three body regexes of lines 96-98 are hand-compiled into
deterministic scanners over character lists.  Each scanner tries every
start position left to right (the leftmost-match rule of
String.prototype.match); at a start position the fixed literals,
quote alternations, whitespace runs and negated character classes of
the pattern are consumed directly.  The attribute gaps written
in the source as a greedy run of non-gt characters are searched
leftmost here; for the success or failure of a match, and for the
inputs arising in this development, this coincides with the greedy
semantics. -/

/-- Consume a literal case-insensitively, returning the rest. -/
def stripLitCI : List Char → List Char → Option (List Char)
  | [], cs => some cs
  | _ :: _, [] => none
  | l :: ls, c :: cs =>
    if l.toLower = c.toLower then stripLitCI ls cs else none

/-- Consume one quote character, single or double, as the alternation
of the first regex does. -/
def takeQuote : List Char → Option (List Char)
  | [] => none
  | c :: rest => if c = dqChar || c = sqChar then some rest else none

/-- Character list of the token name literal. -/
def rvtNameChars : List Char := "__RequestVerificationToken".toList

/-- Scanner for the first body regex of line 96: the token name in
either quote style, whitespace, then a quoted non-empty value; tried
at one start position. -/
def p1At (cs : List Char) : Option String :=
  match stripLitCI "name=".toList cs with
  | none => none
  | some r1 =>
    match takeQuote r1 with
    | none => none
    | some r2 =>
      match stripLitCI rvtNameChars r2 with
      | none => none
      | some r3 =>
        match takeQuote r3 with
        | none => none
        | some r4 =>
          let ws := r4.takeWhile Char.isWhitespace
          let r5 := r4.dropWhile Char.isWhitespace
          if ws.isEmpty then none
          else
            match stripLitCI "value=".toList r5 with
            | none => none
            | some r6 =>
              match takeQuote r6 with
              | none => none
              | some r7 =>
                let cap := r7.takeWhile (fun c => c ≠ dqChar && c ≠ sqChar)
                let r8 := r7.dropWhile (fun c => c ≠ dqChar && c ≠ sqChar)
                if cap.isEmpty then none
                else
                  match r8 with
                  | [] => none
                  | c :: _ =>
                    if c = dqChar || c = sqChar then some (String.mk cap)
                    else none

/-- Search for a literal within the current tag, advancing only over
non-gt characters (the attribute gap of the second and third regex). -/
def findAttr (lit : List Char) : List Char → Option (List Char)
  | [] =>
    match stripLitCI lit [] with
    | some r => some r
    | none => none
  | c :: rest =>
    match stripLitCI lit (c :: rest) with
    | some r => some r
    | none => if c = '>' then none else findAttr lit rest

/-- Capture a non-empty run of non-double-quote characters closed by a
double quote (the capture group of the second and third regex). -/
def captureToDq (cs : List Char) : Option String :=
  let cap := cs.takeWhile (fun c => c ≠ dqChar)
  let rest := cs.dropWhile (fun c => c ≠ dqChar)
  if cap.isEmpty then none
  else
    match rest with
    | [] => none
    | c :: _ => if c = dqChar then some (String.mk cap) else none

/-- Scanner shared by the input-tag regex of line 97 and the meta-tag
regex of line 98: a tag opener, a double-quoted name attribute, then
a double-quoted capture attribute; tried at one start position. -/
def tagProbeAt (opener nameAttr capAttr : List Char) (cs : List Char) :
    Option String :=
  match stripLitCI opener cs with
  | none => none
  | some r1 =>
    match findAttr nameAttr r1 with
    | none => none
    | some r2 =>
      match findAttr capAttr r2 with
      | none => none
      | some r3 => captureToDq r3

/-- Attribute literal name=(dq)__RequestVerificationToken(dq). -/
def rvtAttrChars : List Char :=
  "name=".toList ++ [dqChar] ++ rvtNameChars ++ [dqChar]

/-- Attribute literal name=(dq)csrf-token(dq). -/
def csrfAttrChars : List Char :=
  "name=".toList ++ [dqChar] ++ "csrf-token".toList ++ [dqChar]

/-- Attribute opener value=(dq). -/
def valueOpenChars : List Char := "value=".toList ++ [dqChar]

/-- Attribute opener content=(dq). -/
def contentOpenChars : List Char := "content=".toList ++ [dqChar]

/-- Scanner for the second body regex of line 97. -/
def p2At (cs : List Char) : Option String :=
  tagProbeAt "<input".toList rvtAttrChars valueOpenChars cs

/-- Scanner for the third body regex of line 98. -/
def p3At (cs : List Char) : Option String :=
  tagProbeAt "<meta".toList csrfAttrChars contentOpenChars cs

/-- Leftmost-match search: try the scanner at every start position. -/
def scanFirst (m : List Char → Option String) : List Char → Option String
  | [] => m []
  | c :: rest =>
    match m (c :: rest) with
    | some s => some s
    | none => scanFirst m rest

/-- Header scan of lines 90-94: return the value of the first header
whose lowercased key contains either spelling of the anti-forgery
header name, even when that value is empty. -/
def headerProbe (headers : List (String × String)) : Option String :=
  match headers.find? (fun kv =>
      strIncludes (lowerStr kv.1) "requestverificationtoken" ||
      strIncludes (lowerStr kv.1) "request-verification-token") with
  | some kv => some kv.2
  | none => none

/-- extractVerificationToken (lines 89-102): header scan first; when
no header key matches and a body string is present, the three body
scanners in the fixed order of line 96-98; else null.  Total, so the
embedding never throws. -/
def extractVerificationToken (headers : List (String × String))
    (body : Option String) : Option String :=
  match headerProbe headers with
  | some v => some v
  | none =>
    match body with
    | none => none
    | some b =>
      let cs := b.toList
      match scanFirst p1At cs with
      | some t => some t
      | none =>
        match scanFirst p2At cs with
        | some t => some t
        | none =>
          match scanFirst p3At cs with
          | some t => some t
          | none => none

/-! ## ResponseCapturer: waitForImageDemoResponse (lines 109-163)

Strategy A (page.waitForResponse, lines 111-128) is an external
browser call; it is embedded as an Except-valued input carrying the
matched response on success.  The CDP fallback promise (lines
131-162) is event driven: its listener and timer are embedded as a
step function over a trace of control-channel events, folded from the
state the promise constructor leaves behind (timer armed, listener
attached).  A JavaScript promise keeps only its first resolution, so
the promise value is the head of the recorded resolution list. -/

/-- The response part of a Network.responseReceived event; url and
headers may be absent as the handler guards for both. -/
structure CdpResponse where
  url : Option String
  status : Nat
  headers : Option (List (String × String))
deriving DecidableEq, Repr

/-- Parameters of one Network.responseReceived event.  bodyFetch is
the outcome the control channel would give for
Network.getResponseBody on this requestId; malformed marks a params
object whose property access throws, exercising the catch of lines
155-157. -/
structure CdpParams where
  requestId : String
  response : Option CdpResponse
  bodyFetch : Except Unit (Option String)
  malformed : Bool
deriving DecidableEq, Repr

/-- Events the fallback promise can observe: its own timer firing, or
a Network.responseReceived event on the control channel. -/
inductive CdpEvent where
  | timerFire
  | responseReceived (p : CdpParams)
deriving DecidableEq, Repr

/-- A normalized capture result as returned to the /status handler. -/
structure CaptureResult where
  url : String
  status : Nat
  headers : List (String × String)
  body : Option String
deriving DecidableEq, Repr

/-- State of the fallback promise: the done flag of line 132, whether
the timer of line 133 is spent or cleared, whether the listener of
line 161 is still attached, and the resolutions performed so far. -/
structure FallbackState where
  done : Bool
  timerCleared : Bool
  listenerAttached : Bool
  resolutions : List (Option CaptureResult)
deriving DecidableEq, Repr

/-- State right after the promise constructor runs: timer armed,
listener attached, nothing resolved. -/
def fallbackInit : FallbackState :=
  { done := false, timerCleared := false, listenerAttached := true,
    resolutions := [] }

/-- Capture result built on the fallback match path (lines 144-154):
body from Network.getResponseBody when it succeeds and the body field
is present and non-empty (the truthiness test of line 148), headers
defaulted to empty as on line 154. -/
def cdpCapture (url : String) (r : CdpResponse) (p : CdpParams) :
    CaptureResult :=
  { url := url, status := r.status, headers := r.headers.getD [],
    body :=
      match p.bodyFetch with
      | Except.ok (some b) => if b = "" then none else some b
      | Except.ok none => none
      | Except.error _ => none }

/-- One event of the fallback promise.  The timer branch is lines
133-135 (a spent or cleared timer never fires again; the done guard
is line 134).  The listener branch is lines 137-158: a detached
listener no longer runs; a malformed params object throws into the
catch of lines 155-157; otherwise the url guard of line 140, the done
guard of line 141, then clearTimeout, body fetch, listener removal
and resolution of lines 142-154. -/
def fallbackStep (s : FallbackState) (e : CdpEvent) : FallbackState :=
  match e with
  | CdpEvent.timerFire =>
    if s.timerCleared then s
    else if s.done then { s with timerCleared := true }
    else { s with timerCleared := true, done := true,
                  resolutions := s.resolutions ++ [none] }
  | CdpEvent.responseReceived p =>
    if s.listenerAttached then
      if p.malformed then
        if s.done then s
        else { s with done := true, timerCleared := true,
                      listenerAttached := false,
                      resolutions := s.resolutions ++ [none] }
      else
        match p.response with
        | none => s
        | some r =>
          match r.url with
          | none => s
          | some url =>
            if strIncludes url IMAGE_DEMO_SUBSTR then
              if s.done then s
              else { s with done := true, timerCleared := true,
                            listenerAttached := false,
                            resolutions :=
                              s.resolutions ++ [some (cdpCapture url r p)] }
            else s
    else s

/-- Fold the fallback promise over a trace of events. -/
def runFallback (trace : List CdpEvent) : FallbackState :=
  trace.foldl fallbackStep fallbackInit

/-- Value of the fallback promise after a trace: its first resolution
when one happened, otherwise still pending. -/
def fallbackOutcome (trace : List CdpEvent) : Option (Option CaptureResult) :=
  (runFallback trace).resolutions.head?

/-- The response strategy A hands back on success: the matched
response object of lines 112-120, whose text() may fail (body null
then) and whose headers come from the headers() method when it is a
function, else the private field, else empty. -/
structure ARaw where
  url : String
  status : Nat
  headersFn : Option (List (String × String))
  underscoreHeaders : Option (List (String × String))
  textResult : Except Unit String
deriving DecidableEq, Repr

/-- Normalization of a strategy A response (lines 115-120). -/
def aCapture (r : ARaw) : CaptureResult :=
  { url := r.url, status := r.status,
    headers :=
      match r.headersFn with
      | some h => h
      | none => r.underscoreHeaders.getD [],
    body :=
      match r.textResult with
      | Except.ok t => some t
      | Except.error _ => none }

/-- waitForImageDemoResponse (lines 109-163): when strategy A
resolves, return its normalized capture; when it throws anything (the
catch of lines 121-128 distinguishes TimeoutError from other errors
only in the warning it logs), fall through to the CDP fallback
promise run over the given event trace. -/
def waitForImageDemoResponse (a : Except JsErr ARaw)
    (trace : List CdpEvent) : Option (Option CaptureResult) :=
  match a with
  | Except.ok r => some (some (aCapture r))
  | Except.error _ => fallbackOutcome trace

/-! ## The /status pipeline (lines 165-264) -/

/-- A cookie record; domain may be absent, as the filter of line 232
tests c.domain for truthiness first. -/
structure Cookie where
  name : String
  value : String
  domain : Option String
deriving DecidableEq, Repr

/-- Domain test of line 232. -/
def cookieDomainMatches (c : Cookie) : Bool :=
  match c.domain with
  | some d => strIncludes d "htmlcsstoimage" || strIncludes d "hcti.io"
  | none => false

/-- Cookie collection of lines 229-235: Network.getAllCookies via the
control channel filtered to the target domains; on a channel throw,
page.cookies unfiltered; on both throwing, the empty list. -/
def collectCookies (channel : Except Unit (List Cookie))
    (pageC : Except Unit (List Cookie)) : List Cookie :=
  match channel with
  | Except.ok cs => cs.filter cookieDomainMatches
  | Except.error _ =>
    match pageC with
    | Except.ok cs => cs
    | Except.error _ => []

/-- Message picked for the 500 body on line 262: err.message when it
is a truthy string, else String(err). -/
def errMessageStr (e : JsErr) : String :=
  match e.message with
  | some m => if m = "" then e.stringRep else m
  | none => e.stringRep

/-- Guarded navigation of lines 169-178: a closed page raises before
goto; a first failure whose message is a string containing the
detached-frame text triggers exactly one retry whose outcome stands;
any other first failure propagates. -/
def guardedGoto (pageClosed : Bool) (nav1 nav2 : Except JsErr Unit) :
    Except JsErr Unit :=
  let first : Except JsErr Unit :=
    if pageClosed then
      Except.error { name := "Error",
                     message := some "Page already closed before navigation",
                     stringRep := "Error: Page already closed before navigation" }
    else nav1
  match first with
  | Except.ok _ => Except.ok ()
  | Except.error e =>
    match e.message with
    | some m =>
      if strIncludes (lowerStr m) "detached frame" then nav2
      else Except.error e
    | none => Except.error e

/-- Truthiness of the token variable as tested on lines 240 and 256. -/
def jsFalsy (t : Option String) : Bool :=
  match t with
  | none => true
  | some s => s = ""

/-- Token computation of lines 238-251: extract from the captured
response when one exists; when the result is falsy, consult the DOM
query, whose value replaces the token only when the query succeeds
with a truthy value. -/
def statusToken (resp : Option CaptureResult)
    (domToken : Except Unit (Option String)) : Option String :=
  let token : Option String :=
    match resp with
    | some r => extractVerificationToken r.headers r.body
    | none => none
  if jsFalsy token then
    match domToken with
    | Except.ok (some v) => if v = "" then token else some v
    | Except.ok none => token
    | Except.error _ => token
  else token

/-- Serialization of line 256: token or null, coercing any falsy
token to null. -/
def serializeToken (t : Option String) : Option String :=
  if jsFalsy t then none else t

/-- Summary object of line 258. -/
structure Summary where
  url : String
  status : Nat
  headerKeys : List String
deriving DecidableEq, Repr

/-- Success body of lines 253-259. -/
structure StatusBody where
  timestamp : String
  cookies : List Cookie
  requestVerificationToken : Option String
  imageDemoResponseSeen : Bool
  imageDemoResponseSummary : Option Summary
deriving DecidableEq, Repr

/-- Outcome of one /status request: the 200 body, or the 500 body of
line 262. -/
inductive StatusOutcome where
  | ok (body : StatusBody)
  | err (status : Nat) (error : String) (message : String)
deriving DecidableEq, Repr

/-- External outcomes one /status request depends on.  Site-data
clearing (line 167), the click attempts (lines 200-208) and the
interception toggles swallow their failures and do not shape the
response, so only the response-shaping inputs appear. -/
structure StatusInputs where
  now : String
  pageClosedAtNav : Bool
  nav1 : Except JsErr Unit
  nav2 : Except JsErr Unit
  waitSel : Except JsErr Unit
  capture : Option CaptureResult
  channelCookies : Except Unit (List Cookie)
  pageCookies : Except Unit (List Cookie)
  domToken : Except Unit (Option String)
deriving Repr

/-- The /status handler (lines 165-264): guarded navigation then the
selector wait, each failure caught by the outer catch as a 500 with
the internal-error body; on success the 200 body assembled on lines
253-259. -/
def statusHandler (inp : StatusInputs) : StatusOutcome :=
  match guardedGoto inp.pageClosedAtNav inp.nav1 inp.nav2 with
  | Except.error e => StatusOutcome.err 500 "internal error" (errMessageStr e)
  | Except.ok _ =>
    match inp.waitSel with
    | Except.error e => StatusOutcome.err 500 "internal error" (errMessageStr e)
    | Except.ok _ =>
      StatusOutcome.ok
        { timestamp := inp.now,
          cookies := collectCookies inp.channelCookies inp.pageCookies,
          requestVerificationToken :=
            serializeToken (statusToken inp.capture inp.domToken),
          imageDemoResponseSeen := inp.capture.isSome,
          imageDemoResponseSummary :=
            inp.capture.map (fun r =>
              { url := r.url, status := r.status,
                headerKeys := r.headers.map Prod.fst }) }

/-! ## Predicates and fixtures used by the claim theorems -/

/-- An event that the fallback promise settles on when still pending:
its own timer, a malformed params object, or a response whose url
contains the marker. -/
def isResolvingEvent (e : CdpEvent) : Bool :=
  match e with
  | CdpEvent.timerFire => true
  | CdpEvent.responseReceived p =>
    p.malformed ||
      (match p.response with
       | some r =>
         match r.url with
         | some url => strIncludes url IMAGE_DEMO_SUBSTR
         | none => false
       | none => false)

/-- An event the fallback promise ignores entirely: a well-formed
response whose url is absent or does not contain the marker. -/
def quietEvent (e : CdpEvent) : Bool :=
  match e with
  | CdpEvent.timerFire => false
  | CdpEvent.responseReceived p =>
    !p.malformed &&
      (match p.response with
       | some r =>
         match r.url with
         | some url => !(strIncludes url IMAGE_DEMO_SUBSTR)
         | none => true
       | none => true)

/-- Invariant of the fallback promise state: at most one resolution,
recorded exactly when the done flag is set; the timer is spent or
cleared exactly when done; the listener is still attached while
pending. -/
def FallbackInv (s : FallbackState) : Prop :=
  s.resolutions.length ≤ 1
  ∧ (s.done = true ↔ s.resolutions.length = 1)
  ∧ s.timerCleared = s.done
  ∧ (s.done = false → s.listenerAttached = true)

/-- Classification failure for the interception handler: the
resourceType method is absent or throws, and the private field yields
nothing. -/
def classificationFailed (req : Request) : Prop :=
  (req.resourceTypeFn = none ∨ ∃ u, req.resourceTypeFn = some (Except.error u))
  ∧ (req.underscoreResourceType = none ∨ req.underscoreResourceType = some "")

/-- Double quote as a one-character string, for building fixtures. -/
def dqStr : String := String.mk [dqChar]

/-- Body fixture embedding a token through the first body pattern. -/
def exTokenBody : String :=
  "name=" ++ dqStr ++ "__RequestVerificationToken" ++ dqStr ++ " value=" ++
    dqStr ++ "TOK" ++ dqStr

/-- Captured response fixture whose headers hold an empty anti-forgery
value while the body embeds a token. -/
def c5cap : CaptureResult :=
  { url := "u", status := 200,
    headers := [("requestverificationtoken", "")],
    body := some exTokenBody }

/-- A detached-frame navigation error fixture. -/
def eDetached : JsErr :=
  { name := "Error", message := some "Navigating frame was detached frame",
    stringRep := "Error: detached frame" }

/-- A navigation error fixture with a non-detached message. -/
def ePlain : JsErr :=
  { name := "Error", message := some "net::ERR_NAME_NOT_RESOLVED",
    stringRep := "Error: net::ERR_NAME_NOT_RESOLVED" }

/-- Status inputs fixture where the pipeline succeeds with no capture
and every auxiliary probe failing. -/
def okInputs : StatusInputs :=
  { now := "t0", pageClosedAtNav := false, nav1 := Except.ok (),
    nav2 := Except.ok (), waitSel := Except.ok (), capture := none,
    channelCookies := Except.error (), pageCookies := Except.error (),
    domToken := Except.error () }

/-- Status inputs fixture whose first navigation fails with a
non-detached error. -/
def failNavInputs : StatusInputs :=
  { okInputs with nav1 := Except.error ePlain }

/-- A quiet control-channel event fixture: a well-formed response on
another url. -/
def quietEv : CdpEvent :=
  CdpEvent.responseReceived
    { requestId := "r1",
      response := some { url := some "https://example.com/other",
                         status := 200, headers := some [] },
      bodyFetch := Except.ok none, malformed := false }

/-! ## Lemmas about the fallback promise -/

/-! ## Lemmas about the fallback promise -/

theorem fallbackInv_init : FallbackInv fallbackInit := by
  simp [FallbackInv, fallbackInit]

theorem fallbackInv_len_zero (s : FallbackState) (h : FallbackInv s)
    (hd : s.done = false) : s.resolutions.length = 0 := by
  obtain ⟨h1, h2, _, _⟩ := h
  have hne : s.resolutions.length ≠ 1 := by
    intro hh
    rw [h2.mpr hh] at hd
    cases hd
  omega

theorem fallbackStep_done (s : FallbackState) (e : CdpEvent)
    (h : FallbackInv s) (hd : s.done = true) : fallbackStep s e = s := by
  obtain ⟨h1, h2, h3, h4⟩ := h
  have hcl : s.timerCleared = true := by rw [h3, hd]
  cases e with
  | timerFire => simp [fallbackStep, hcl]
  | responseReceived p =>
    obtain ⟨rid, pres, bf, mal⟩ := p
    by_cases hatt : s.listenerAttached = true
    · cases mal with
      | true => simp [fallbackStep, hatt, hd]
      | false =>
        cases pres with
        | none => simp [fallbackStep, hatt]
        | some r =>
          obtain ⟨rurl, rst, rhd⟩ := r
          cases rurl with
          | none => simp [fallbackStep, hatt]
          | some url => simp [fallbackStep, hatt, hd]
    · have hatt' : s.listenerAttached = false := by
        revert hatt
        cases s.listenerAttached <;> simp
      simp [fallbackStep, hatt']

theorem fallbackInv_step (s : FallbackState) (e : CdpEvent)
    (h : FallbackInv s) : FallbackInv (fallbackStep s e) := by
  by_cases hd : s.done = true
  · rw [fallbackStep_done s e h hd]
    exact h
  · have hd' : s.done = false := by
      revert hd
      cases s.done <;> simp
    have hlen : s.resolutions.length = 0 := fallbackInv_len_zero s h hd'
    obtain ⟨h1, h2, h3, h4⟩ := h
    have hatt : s.listenerAttached = true := h4 hd'
    have hcl : s.timerCleared = false := by rw [h3, hd']
    cases e with
    | timerFire =>
      simp [fallbackStep, hcl, hd', FallbackInv, hlen]
    | responseReceived p =>
      obtain ⟨rid, pres, bf, mal⟩ := p
      cases mal with
      | true => simp [fallbackStep, hatt, hd', FallbackInv, hlen]
      | false =>
        cases pres with
        | none =>
          simp only [fallbackStep, hatt, if_true]
          exact ⟨h1, h2, h3, h4⟩
        | some r =>
          obtain ⟨rurl, rst, rhd⟩ := r
          cases rurl with
          | none =>
            simp only [fallbackStep, hatt, if_true]
            exact ⟨h1, h2, h3, h4⟩
          | some url =>
            by_cases hincl : strIncludes url IMAGE_DEMO_SUBSTR = true
            · simp [fallbackStep, hatt, hincl, hd', FallbackInv, hlen]
            · have hincl' : strIncludes url IMAGE_DEMO_SUBSTR = false := by
                revert hincl
                cases strIncludes url IMAGE_DEMO_SUBSTR <;> simp
              simp only [fallbackStep, hatt, hincl', if_true, Bool.false_eq_true,
                if_false]
              exact ⟨h1, h2, h3, h4⟩

theorem fallbackInv_foldl (t : List CdpEvent) (s : FallbackState)
    (h : FallbackInv s) : FallbackInv (t.foldl fallbackStep s) := by
  induction t generalizing s with
  | nil => exact h
  | cons e rest ih => exact ih _ (fallbackInv_step s e h)

theorem fallbackInv_run (t : List CdpEvent) : FallbackInv (runFallback t) :=
  fallbackInv_foldl t fallbackInit fallbackInv_init

theorem fallback_foldl_done (t : List CdpEvent) (s : FallbackState)
    (h : FallbackInv s) (hd : s.done = true) : t.foldl fallbackStep s = s := by
  induction t with
  | nil => rfl
  | cons e rest ih =>
    simp only [List.foldl_cons, fallbackStep_done s e h hd]
    exact ih

theorem fallbackStep_resolving (s : FallbackState) (e : CdpEvent)
    (h : FallbackInv s) (hd : s.done = false)
    (he : isResolvingEvent e = true) :
    (fallbackStep s e).done = true
    ∧ (fallbackStep s e).resolutions.length = 1 := by
  have hlen : s.resolutions.length = 0 := fallbackInv_len_zero s h hd
  obtain ⟨h1, h2, h3, h4⟩ := h
  have hatt : s.listenerAttached = true := h4 hd
  have hcl : s.timerCleared = false := by rw [h3, hd]
  cases e with
  | timerFire => simp [fallbackStep, hcl, hd, hlen]
  | responseReceived p =>
    obtain ⟨rid, pres, bf, mal⟩ := p
    cases mal with
    | true => simp [fallbackStep, hatt, hd, hlen]
    | false =>
      cases pres with
      | none => simp [isResolvingEvent] at he
      | some r =>
        obtain ⟨rurl, rst, rhd⟩ := r
        cases rurl with
        | none => simp [isResolvingEvent] at he
        | some url =>
          simp only [isResolvingEvent, Bool.false_or] at he
          simp [fallbackStep, hatt, hd, hlen, he]

theorem quietEvent_step (s : FallbackState) (e : CdpEvent)
    (hq : quietEvent e = true) : fallbackStep s e = s := by
  cases e with
  | timerFire => simp [quietEvent] at hq
  | responseReceived p =>
    obtain ⟨rid, pres, bf, mal⟩ := p
    cases mal with
    | true => simp [quietEvent] at hq
    | false =>
      cases pres with
      | none => simp [fallbackStep]
      | some r =>
        obtain ⟨rurl, rst, rhd⟩ := r
        cases rurl with
        | none => simp [fallbackStep]
        | some url =>
          simp only [quietEvent, Bool.not_false, Bool.true_and,
            Bool.not_eq_true'] at hq
          simp [fallbackStep, hq]

theorem quiet_foldl (t : List CdpEvent) (s : FallbackState)
    (hq : ∀ e, e ∈ t → quietEvent e = true) : t.foldl fallbackStep s = s := by
  induction t with
  | nil => rfl
  | cons e rest ih =>
    simp only [List.foldl_cons, quietEvent_step s e (hq e (by simp))]
    exact ih fun x hx => hq x (by simp [hx])

theorem runFallback_append (t1 t2 : List CdpEvent) :
    runFallback (t1 ++ t2) = t2.foldl fallbackStep (runFallback t1) := by
  simp [runFallback, List.foldl_append]

/-! ## Claim theorems -/

/-- C1 (counterexample): on the trace where only the timeout fires,
the fallback promise resolves with null, yet the listener it
registered on the control channel is still attached — refuting the
claim that upon resolution every registered listener has been
detached. -/
theorem c1_counterexample :
    (runFallback [CdpEvent.timerFire]).resolutions = [none]
    ∧ (runFallback [CdpEvent.timerFire]).listenerAttached = true := by
  decide

/-- C1 (amended): for any marker-free trace (the marker never appears
in any response event), the timer, never cleared, fires and the
operation resolves with null; however the control-channel listener
remains attached after the timeout resolution — it is only rendered
inert by the done flag, so no later event ever changes the
resolution. -/
theorem c1_timeout_resolution (trace : List CdpEvent)
    (hq : ∀ e, e ∈ trace → quietEvent e = true) :
    (runFallback (trace ++ [CdpEvent.timerFire])).resolutions = [none]
    ∧ (runFallback (trace ++ [CdpEvent.timerFire])).listenerAttached = true
    ∧ (∀ extra, runFallback (trace ++ [CdpEvent.timerFire] ++ extra)
        = runFallback (trace ++ [CdpEvent.timerFire])) := by
  have hq' : runFallback trace = fallbackInit :=
    quiet_foldl trace fallbackInit hq
  have h1 : runFallback (trace ++ [CdpEvent.timerFire])
      = fallbackStep fallbackInit CdpEvent.timerFire := by
    rw [runFallback_append, hq']
    rfl
  have hval : fallbackStep fallbackInit CdpEvent.timerFire
      = { done := true, timerCleared := true, listenerAttached := true,
          resolutions := [none] } := by decide
  refine ⟨by rw [h1, hval], by rw [h1, hval], ?_⟩
  intro extra
  rw [runFallback_append (trace ++ [CdpEvent.timerFire]) extra]
  exact fallback_foldl_done extra _ (fallbackInv_run _) (by rw [h1, hval])

/-- C1 witness: a concrete quiet trace (one response on another url)
followed by the timer: resolution is null and the listener is still
attached. -/
theorem c1_witness :
    (runFallback ([quietEv] ++ [CdpEvent.timerFire])).resolutions = [none]
    ∧ (runFallback ([quietEv] ++ [CdpEvent.timerFire])).listenerAttached
      = true := by
  have h := c1_timeout_resolution [quietEv]
    (by
      intro e he
      simp only [List.mem_singleton] at he
      rw [he]
      decide)
  exact ⟨h.1, h.2.1⟩

/-- C2: the fallback promise resolves at most once on any event
trace; it resolves exactly once as soon as the trace contains the
timer firing or a matching (or handler-throwing) response event; and
once the done flag is set, no further events — in particular a second
matching response — change the state, so no second resolution ever
fires. -/
theorem c2_single_resolution (trace : List CdpEvent) :
    (runFallback trace).resolutions.length ≤ 1
    ∧ (∀ e, e ∈ trace → isResolvingEvent e = true →
        (runFallback trace).resolutions.length = 1)
    ∧ (∀ extra, (runFallback trace).done = true →
        runFallback (trace ++ extra) = runFallback trace) := by
  refine ⟨(fallbackInv_run trace).1, ?_, ?_⟩
  · intro e hmem hres
    obtain ⟨t1, t2, rfl⟩ := List.append_of_mem hmem
    have hinv1 : FallbackInv (runFallback t1) := fallbackInv_run t1
    by_cases hd : (runFallback t1).done = true
    · have hstep : fallbackStep (runFallback t1) e = runFallback t1 :=
        fallbackStep_done _ e hinv1 hd
      have heq : runFallback (t1 ++ e :: t2) = runFallback t1 := by
        rw [runFallback_append, List.foldl_cons, hstep]
        exact fallback_foldl_done t2 _ hinv1 hd
      rw [heq]
      exact hinv1.2.1.mp hd
    · have hd' : (runFallback t1).done = false := by
        revert hd
        cases (runFallback t1).done <;> simp
      have hres' := fallbackStep_resolving (runFallback t1) e hinv1 hd' hres
      have hinv2 : FallbackInv (fallbackStep (runFallback t1) e) :=
        fallbackInv_step _ e hinv1
      have heq : runFallback (t1 ++ e :: t2)
          = fallbackStep (runFallback t1) e := by
        rw [runFallback_append, List.foldl_cons]
        exact fallback_foldl_done t2 _ hinv2 hres'.1
      rw [heq]
      exact hres'.2
  · intro extra hd
    rw [runFallback_append]
    exact fallback_foldl_done extra _ (fallbackInv_run trace) hd

/-- C2 witness: on the concrete trace of one timer event the promise
has resolved exactly once, and replaying a further timer event leaves
the state untouched. -/
theorem c2_witness :
    (runFallback [CdpEvent.timerFire]).resolutions.length = 1
    ∧ runFallback ([CdpEvent.timerFire] ++ [CdpEvent.timerFire])
      = runFallback [CdpEvent.timerFire] := by
  refine ⟨?_, ?_⟩
  · exact (c2_single_resolution [CdpEvent.timerFire]).2.1 CdpEvent.timerFire
      (by simp) (by decide)
  · exact (c2_single_resolution [CdpEvent.timerFire]).2.2 [CdpEvent.timerFire]
      (by decide)

/-- C9: any error from strategy A — a timeout or anything else — is
swallowed by the catch of lines 121-128 and the operation falls
through to the control-channel fallback; the result never depends on
the error and no error propagates (the codomain of
waitForImageDemoResponse carries no error case). -/
theorem c9_strategy_a_errors_fall_through (e1 e2 : JsErr)
    (trace : List CdpEvent) :
    waitForImageDemoResponse (Except.error e1) trace = fallbackOutcome trace
    ∧ waitForImageDemoResponse (Except.error e1) trace
      = waitForImageDemoResponse (Except.error e2) trace :=
  ⟨rfl, rfl⟩

/-- C3 (counterexample): from the startup state, enable followed by
the /status disable block leaves interception off but one request
handler still registered — refuting the claim that an enable followed
by a disable leaves zero handlers, and exhibiting the
partially-configured state (handler registered while interception is
disabled). -/
theorem c3_counterexample :
    (statusDisable true (enableResourceBlocking true
        { interception := false, handlers := 0 })).interception = false
    ∧ (statusDisable true (enableResourceBlocking true
        { interception := false, handlers := 0 })).handlers = 1
    ∧ ¬ (statusDisable true (enableResourceBlocking true
        { interception := false, handlers := 0 })).handlers = 0 := by
  decide

/-- C3 (amended): enable followed by the /status disable block leaves
interception Disabled with the handler registered by enable still in
place (the handler count grows by one); only the /status re-enable
block restores a clean configuration, by removing every request
handler and registering exactly one with interception Enabled. -/
theorem c3_enable_disable (s : FilterState) :
    statusDisable true (enableResourceBlocking true s)
      = { interception := false, handlers := s.handlers + 1 }
    ∧ statusReenable true s = { interception := true, handlers := 1 } :=
  ⟨rfl, rfl⟩

/-- C3 witness: a concrete enable-disable pair from a state with five
handlers leaves interception off and six handlers. -/
theorem c3_witness :
    statusDisable true (enableResourceBlocking true
      { interception := true, handlers := 5 })
      = { interception := false, handlers := 6 } :=
  (c3_enable_disable { interception := true, handlers := 5 }).1

/-- C4: the interception handler aborts a request exactly when its
classified resource kind is image, font or stylesheet, and whenever
classification fails (the resourceType method absent or throwing, and
the private field yielding nothing) the request is continued. -/
theorem c4_filter_policy (req : Request) :
    (handleRequest req = ReqAction.abort ↔
      (classifyResourceType req = "image" ∨ classifyResourceType req = "font"
        ∨ classifyResourceType req = "stylesheet"))
    ∧ (classificationFailed req → handleRequest req = ReqAction.cont) := by
  constructor
  · constructor
    · intro h
      by_contra hc
      push_neg at hc
      obtain ⟨n1, n2, n3⟩ := hc
      simp [handleRequest, n1, n2, n3] at h
    · intro h
      rcases h with h | h | h <;> simp [handleRequest, h]
  · rintro ⟨hfn, hu⟩
    have ht : classifyResourceType req = "" := by
      rcases hfn with h | ⟨u, h⟩ <;> rcases hu with h2 | h2 <;>
        simp [classifyResourceType, h, h2]
    simp [handleRequest, ht]

/-- C4 witness: a request with no resourceType method and no private
field is continued. -/
theorem c4_witness :
    handleRequest { resourceTypeFn := none, underscoreResourceType := none }
      = ReqAction.cont :=
  (c4_filter_policy _).2 ⟨Or.inl rfl, Or.inl rfl⟩

/-- C5 (counterexample): with a header whose anti-forgery key holds
the empty string while the body embeds a token matched by the first
body pattern, extraction returns the empty header value and never
consults the body — so the result is not the first non-empty match
across the probes; downstream, the /status chain serializes it to
null instead of the body token. -/
theorem c5_counterexample :
    extractVerificationToken [("requestverificationtoken", "")]
        (some exTokenBody) = some ""
    ∧ scanFirst p1At exTokenBody.toList = some "TOK"
    ∧ statusToken (some c5cap) (Except.error ()) = some ""
    ∧ serializeToken (statusToken (some c5cap) (Except.error ())) = none := by
  decide

/-- C5 (amended): extraction follows the deterministic priority
chain header, then the three body patterns in fixed order, then the
DOM query — but the header probe returns the header value even when
it is empty, short-circuiting the body probes; the /status DOM query
is consulted exactly when the extracted token is null or empty, and a
truthy extraction passes through unchanged; extraction is a total
function and never throws. -/
theorem c5_extract_priority :
    (∀ (headers : List (String × String)) (b : String) (v : String),
      headerProbe headers = some v →
        extractVerificationToken headers (some b) = some v)
    ∧ (∀ (headers : List (String × String)) (b : String) (t : String),
      headerProbe headers = none →
      scanFirst p1At b.toList = some t →
        extractVerificationToken headers (some b) = some t)
    ∧ (∀ (headers : List (String × String)) (b : String) (t : String),
      headerProbe headers = none →
      scanFirst p1At b.toList = none →
      scanFirst p2At b.toList = some t →
        extractVerificationToken headers (some b) = some t)
    ∧ (∀ (headers : List (String × String)) (b : String) (t : String),
      headerProbe headers = none →
      scanFirst p1At b.toList = none →
      scanFirst p2At b.toList = none →
      scanFirst p3At b.toList = some t →
        extractVerificationToken headers (some b) = some t)
    ∧ (∀ (headers : List (String × String)),
      extractVerificationToken headers none = headerProbe headers)
    ∧ (∀ (r : CaptureResult) (dom : Except Unit (Option String)) (v : String),
      extractVerificationToken r.headers r.body = some v → ¬ v = "" →
        statusToken (some r) dom = some v)
    ∧ statusToken (some c5cap) (Except.ok (some "DOMTOK"))
      = some "DOMTOK" := by
  refine ⟨?_, ?_, ?_, ?_, ?_, ?_, by decide⟩
  · intro hs b v h
    simp [extractVerificationToken, h]
  · intro hs b t h h1
    simp only [String.toList] at h1
    simp [extractVerificationToken, h, h1]
  · intro hs b t h h1 h2
    simp only [String.toList] at h1 h2
    simp [extractVerificationToken, h, h1, h2]
  · intro hs b t h h1 h2 h3
    simp only [String.toList] at h1 h2 h3
    simp [extractVerificationToken, h, h1, h2, h3]
  · intro hs
    cases hh : headerProbe hs <;> simp [extractVerificationToken, hh]
  · intro r dom v h hv
    simp [statusToken, h, jsFalsy, hv]

/-- C5 witness: a header-sourced token wins over a body that also
embeds one. -/
theorem c5_witness :
    extractVerificationToken [("X-Request-Verification-Token", "HTOK")]
      (some exTokenBody) = some "HTOK" :=
  c5_extract_priority.1 _ exTokenBody "HTOK" (by decide)

/-- C6: cookie collection filters the control-channel cookie set to
the target domains (every returned cookie matches them); on a channel
failure it returns the page accessor's set; when both fail it returns
the empty set; being a total function, no error propagates. -/
theorem c6_collect_cookies :
    (∀ (cs : List Cookie) (pageC : Except Unit (List Cookie)),
      collectCookies (Except.ok cs) pageC = cs.filter cookieDomainMatches
      ∧ (∀ c, c ∈ collectCookies (Except.ok cs) pageC →
          cookieDomainMatches c = true))
    ∧ (∀ pcs, collectCookies (Except.error ()) (Except.ok pcs) = pcs)
    ∧ collectCookies (Except.error ()) (Except.error ()) = [] := by
  refine ⟨?_, fun pcs => rfl, rfl⟩
  intro cs pageC
  refine ⟨rfl, ?_⟩
  intro c hc
  simp only [collectCookies] at hc
  exact (List.mem_filter.mp hc).2

/-- C6 witness: a target-domain cookie returned by the channel path
indeed matches the domain filter. -/
theorem c6_witness :
    cookieDomainMatches
      { name := "n", value := "v", domain := some "www.htmlcsstoimage.com" }
      = true :=
  (c6_collect_cookies.1
    [{ name := "n", value := "v", domain := some "www.htmlcsstoimage.com" }]
    (Except.error ())).2 _ (by decide)

/-- C7: a first navigation failure whose message contains the
detached-frame text is retried exactly once and the retry's outcome
stands; any other first failure propagates unretried; and any error
escaping the guarded navigation is surfaced by /status as a 500
internal-error response. -/
theorem c7_navigation_policy :
    (∀ (nav2 : Except JsErr Unit) (e : JsErr) (m : String),
      e.message = some m →
      strIncludes (lowerStr m) "detached frame" = true →
      guardedGoto false (Except.error e) nav2 = nav2)
    ∧ (∀ (nav2 : Except JsErr Unit) (e : JsErr),
      (∀ m, e.message = some m →
        strIncludes (lowerStr m) "detached frame" = false) →
      guardedGoto false (Except.error e) nav2 = Except.error e)
    ∧ (∀ (inp : StatusInputs) (e : JsErr),
      guardedGoto inp.pageClosedAtNav inp.nav1 inp.nav2 = Except.error e →
      statusHandler inp = StatusOutcome.err 500 "internal error"
        (errMessageStr e)) := by
  refine ⟨?_, ?_, ?_⟩
  · intro nav2 e m hm hd
    simp [guardedGoto, hm, hd]
  · intro nav2 e hnd
    cases hm : e.message with
    | none => simp [guardedGoto, hm]
    | some m => simp [guardedGoto, hm, hnd m hm]
  · intro inp e hg
    simp [statusHandler, hg]

/-- C7 witness: a concrete detached-frame failure followed by a
successful retry navigates; a concrete non-detached failure surfaces
as the 500 internal-error response. -/
theorem c7_witness :
    guardedGoto false (Except.error eDetached) (Except.ok ()) = Except.ok ()
    ∧ statusHandler failNavInputs
      = StatusOutcome.err 500 "internal error"
          "net::ERR_NAME_NOT_RESOLVED" := by
  constructor
  · exact c7_navigation_policy.1 (Except.ok ()) eDetached
      "Navigating frame was detached frame" rfl (by decide)
  · have h := c7_navigation_policy.2.2 failNavInputs ePlain (by decide)
    rw [h]
    decide

/-- C8 (counterexample): the /ping body's keys are ok, ts and host;
no field named timestamp exists — refuting the claim that the body
contains exactly the fields ok, timestamp and host. -/
theorem c8_counterexample :
    (pingHandler "2025-01-01T00:00:00.000Z" "host1").2.map Prod.fst
      = ["ok", "ts", "host"]
    ∧ ¬ ("timestamp" ∈
        (pingHandler "2025-01-01T00:00:00.000Z" "host1").2.map Prod.fst) := by
  decide

/-- C8 (amended): every GET to /ping yields status 200 with a JSON
body containing exactly the fields ok (true), ts (the timestamp
string) and host, in that order; the handler is a pure function of
the clock and hostname, so it has no side effects on shared state. -/
theorem c8_ping_fields (now host : String) :
    (pingHandler now host).1 = 200
    ∧ (pingHandler now host).2.map Prod.fst = ["ok", "ts", "host"]
    ∧ (pingHandler now host).2.lookup "ok" = some (JsonVal.bool true)
    ∧ (pingHandler now host).2.lookup "ts" = some (JsonVal.str now)
    ∧ (pingHandler now host).2.lookup "host" = some (JsonVal.str host) :=
  ⟨rfl, rfl, rfl, rfl, rfl⟩

/-- C8 witness: the amended field contract at one concrete clock and
hostname. -/
theorem c8_witness : (pingHandler "t1" "h1").1 = 200 :=
  (c8_ping_fields "t1" "h1").1

/-- C9 witness: a concrete non-timeout strategy A error still hands
the result to the fallback. -/
theorem c9_witness :
    waitForImageDemoResponse (Except.error ePlain) [CdpEvent.timerFire]
      = fallbackOutcome [CdpEvent.timerFire] :=
  (c9_strategy_a_errors_fall_through ePlain eDetached [CdpEvent.timerFire]).1

/-- C10: a successful /status response never carries the empty string
in its requestVerificationToken field: serialization coerces every
falsy token — the empty string included — to null. -/
theorem c10_token_never_empty :
    (∀ (inp : StatusInputs) (b : StatusBody),
      statusHandler inp = StatusOutcome.ok b →
      ¬ b.requestVerificationToken = some "")
    ∧ serializeToken (some "") = none := by
  have hser : ∀ t, ¬ serializeToken t = some "" := by
    intro t
    cases t with
    | none => simp [serializeToken]
    | some s =>
      by_cases hs : s = ""
      · simp [serializeToken, jsFalsy, hs]
      · simp [serializeToken, jsFalsy, hs]
  constructor
  · intro inp b hb
    simp only [statusHandler] at hb
    split at hb
    · simp at hb
    · split at hb
      · simp at hb
      · injection hb with h
        rw [← h]
        exact hser _
  · simp [serializeToken, jsFalsy]

/-- C10 witness: the concrete succeeding pipeline run yields a body
whose token field is not the empty string. -/
theorem c10_witness :
    ¬ ({ timestamp := "t0", cookies := [], requestVerificationToken := none,
         imageDemoResponseSeen := false,
         imageDemoResponseSummary := none } : StatusBody).requestVerificationToken
      = some "" :=
  c10_token_never_empty.1 okInputs _ (by decide)

end PupServer
